import Mathlib

/-!
Shallow embedding of the GammaUnet low-light image-restoration model
(src/model.py).  Tensors are modelled as a shape together with a total
real-valued index function (entries outside the shape are irrelevant),
modules as records of parameter arrays, and forward passes as functions
returning Option: torch runtime shape errors become none.
-/

noncomputable section

open scoped BigOperators

/-- A 4-dimensional tensor indexed as (batch, channel, height, width). -/
structure Tensor4 where
  batch : Nat
  channels : Nat
  height : Nat
  width : Nat
  data : Nat → Nat → Nat → Nat → ℝ

/-- A 3-dimensional tensor indexed as (batch, token, feature). -/
structure Tensor3 where
  batch : Nat
  seq : Nat
  dim : Nat
  data : Nat → Nat → Nat → ℝ

/-- A 4-dimensional tensor indexed as (batch, head, token, feature). -/
structure TensorHeads where
  batch : Nat
  heads : Nat
  seq : Nat
  dim : Nat
  data : Nat → Nat → Nat → Nat → ℝ

/-- Elementwise application of a scalar function. -/
def mapT (f : ℝ → ℝ) (x : Tensor4) : Tensor4 :=
  { x with data := fun b c i j => f (x.data b c i j) }

/-- F.relu. -/
def relu (v : ℝ) : ℝ := max v 0

/-- torch.sigmoid. -/
def sigmoid (v : ℝ) : ℝ := 1 / (1 + Real.exp (-v))

/-- torch.tanh. -/
def tanhR (v : ℝ) : ℝ :=
  (Real.exp v - Real.exp (-v)) / (Real.exp v + Real.exp (-v))

/-- torch.sign. -/
def sgn (v : ℝ) : ℝ := if 0 < v then 1 else if v < 0 then -1 else 0

/-- torch.clamp(v, 0, 1). -/
def clamp01 (v : ℝ) : ℝ := min (max v 0) 1

/-- Parameters of an nn.Linear layer (weight is (out, in)). -/
structure LinearParams where
  weight : Nat → Nat → ℝ
  bias : Nat → ℝ

/-- Parameters of an nn.Conv2d layer (weight is (out, in, u, v)). -/
structure ConvParams where
  weight : Nat → Nat → Nat → Nat → ℝ
  bias : Nat → ℝ

/-- Zero-padded read of x at padded coordinates (padding p on each side). -/
def padGet (x : Tensor4) (p b c r q : Nat) : ℝ :=
  if p ≤ r ∧ r < x.height + p ∧ p ≤ q ∧ q < x.width + p then
    x.data b c (r - p) (q - p)
  else 0

/-- Spatial output size of a convolution. -/
def convOut (n k s p : Nat) : Nat := (n + 2 * p - k) / s + 1

/-- The value computed by nn.Conv2d once the shape checks have passed. -/
def convRaw (cp : ConvParams) (outC inC k s p : Nat) (x : Tensor4) : Tensor4 :=
  { batch := x.batch, channels := outC,
    height := convOut x.height k s p, width := convOut x.width k s p,
    data := fun b o i j =>
      cp.bias o + ∑ c ∈ Finset.range inC, ∑ u ∈ Finset.range k,
        ∑ v ∈ Finset.range k,
          cp.weight o c u v * padGet x p b c (i * s + u) (j * s + v) }

/-- nn.Conv2d forward: torch raises if the channel count mismatches or the
padded input is smaller than the kernel. -/
def conv2d (cp : ConvParams) (outC inC k s p : Nat) (x : Tensor4) : Option Tensor4 :=
  if x.channels = inC ∧ k ≤ x.height + 2 * p ∧ k ≤ x.width + 2 * p then
    some (convRaw cp outC inC k s p x)
  else none

/-- The value computed by a (broadcasting) tensor addition once the
compatibility check has passed; a size-1 axis is indexed at 0 via mod. -/
def addRaw (x y : Tensor4) : Tensor4 :=
  { batch := max x.batch y.batch, channels := max x.channels y.channels,
    height := max x.height y.height, width := max x.width y.width,
    data := fun b c i j =>
      x.data (b % x.batch) (c % x.channels) (i % x.height) (j % x.width) +
      y.data (b % y.batch) (c % y.channels) (i % y.height) (j % y.width) }

/-- Elementwise + with torch broadcasting: each axis pair must be equal or
one of the two must be 1, otherwise torch raises a shape-mismatch error. -/
def addT (x y : Tensor4) : Option Tensor4 :=
  if (x.batch = y.batch ∨ x.batch = 1 ∨ y.batch = 1) ∧
     (x.channels = y.channels ∨ x.channels = 1 ∨ y.channels = 1) ∧
     (x.height = y.height ∨ x.height = 1 ∨ y.height = 1) ∧
     (x.width = y.width ∨ x.width = 1 ∨ y.width = 1) then
    some (addRaw x y)
  else none

/-- nn.Upsample(scale_factor=2, mode=nearest). -/
def upsample2 (x : Tensor4) : Tensor4 :=
  { x with height := 2 * x.height, width := 2 * x.width,
           data := fun b c i j => x.data b c (i / 2) (j / 2) }

/-- The MultiHeadSelfAttention module: configuration fixed at construction
plus the four dense projections. -/
structure MultiHeadSelfAttention where
  embed_size : Nat
  num_heads : Nat
  head_dim : Nat
  query_dense : LinearParams
  key_dense : LinearParams
  value_dense : LinearParams
  combine_heads : LinearParams

/-- MultiHeadSelfAttention.__init__: the assert makes construction fail
unless embed_size is evenly divisible by num_heads. -/
def MultiHeadSelfAttention.init (embed_size num_heads : Nat)
    (q k v c : LinearParams) : Option MultiHeadSelfAttention :=
  if embed_size % num_heads = 0 then
    some { embed_size := embed_size, num_heads := num_heads,
           head_dim := embed_size / num_heads,
           query_dense := q, key_dense := k, value_dense := v,
           combine_heads := c }
  else none

/-- x.reshape(batch, h*w, -1) on a contiguous (batch, C, h, w) tensor:
reshape keeps row-major flat order, so entry (b, t, c) reads flat offset
t*C + c of batch b of the input. -/
def reshapeToSeq (x : Tensor4) : Tensor3 :=
  { batch := x.batch, seq := x.height * x.width, dim := x.channels,
    data := fun b t c =>
      x.data b ((t * x.channels + c) / (x.height * x.width))
        (((t * x.channels + c) % (x.height * x.width)) / x.width)
        (((t * x.channels + c) % (x.height * x.width)) % x.width) }

/-- nn.Linear applied over the last axis of a (batch, seq, dim) tensor. -/
def linear3 (lp : LinearParams) (inDim outDim : Nat) (x : Tensor3) : Tensor3 :=
  { batch := x.batch, seq := x.seq, dim := outDim,
    data := fun b t o =>
      lp.bias o + ∑ c ∈ Finset.range inDim, x.data b t c * lp.weight o c }

/-- MultiHeadSelfAttention.split_heads: reshape (batch, seq, heads*dh) to
(batch, seq, heads, dh), then permute to (batch, heads, seq, dh). -/
def MultiHeadSelfAttention.split_heads (heads dh : Nat) (x : Tensor3) : TensorHeads :=
  { batch := x.batch, heads := heads, seq := x.seq, dim := dh,
    data := fun b h t d => x.data b t (h * dh + d) }

/-- Scaled dot-product scores query.key^T / sqrt(head_dim). -/
def attnScores (q k : TensorHeads) (dh : Nat) : Nat → Nat → Nat → Nat → ℝ :=
  fun b h t s =>
    (∑ d ∈ Finset.range dh, q.data b h t d * k.data b h s d) / Real.sqrt (dh : ℝ)

/-- softmax over the last axis (of length seq). -/
def softmaxLast (seq : Nat) (z : Nat → Nat → Nat → Nat → ℝ) :
    Nat → Nat → Nat → Nat → ℝ :=
  fun b h t s => Real.exp (z b h t s) / ∑ u ∈ Finset.range seq, Real.exp (z b h t u)

/-- attention.permute(0,2,1,3).contiguous().reshape(batch, -1, embed):
merge the heads back into the feature axis. -/
def mergeHeads (embed dh : Nat) (a : TensorHeads) : Tensor3 :=
  { batch := a.batch, seq := a.seq, dim := embed,
    data := fun b t f => a.data b (f / dh) t (f % dh) }

/-- output.reshape(batch, h, w, embed).permute(0, 3, 1, 2). -/
def reshapeFromSeq (h w embed : Nat) (x : Tensor3) : Tensor4 :=
  { batch := x.batch, channels := embed, height := h, width := w,
    data := fun b f i j => x.data b (i * w + j) f }

/-- The body of MultiHeadSelfAttention.forward (all steps after the
channel/embedding compatibility that torch checks inside the Linear). -/
def mhsaRaw (m : MultiHeadSelfAttention) (x : Tensor4) : Tensor4 :=
  let seqx := reshapeToSeq x
  let query := MultiHeadSelfAttention.split_heads m.num_heads m.head_dim
    (linear3 m.query_dense m.embed_size m.embed_size seqx)
  let key := MultiHeadSelfAttention.split_heads m.num_heads m.head_dim
    (linear3 m.key_dense m.embed_size m.embed_size seqx)
  let value := MultiHeadSelfAttention.split_heads m.num_heads m.head_dim
    (linear3 m.value_dense m.embed_size m.embed_size seqx)
  let attention_weights := softmaxLast seqx.seq (attnScores query key m.head_dim)
  let attention : TensorHeads :=
    { batch := x.batch, heads := m.num_heads, seq := seqx.seq, dim := m.head_dim,
      data := fun b h t d =>
        ∑ s ∈ Finset.range seqx.seq, attention_weights b h t s * value.data b h s d }
  let merged := mergeHeads m.embed_size m.head_dim attention
  let output := linear3 m.combine_heads m.embed_size m.embed_size merged
  reshapeFromSeq x.height x.width m.embed_size output

/-- MultiHeadSelfAttention.forward: the dense projections require the
flattened feature dimension to equal embed_size. -/
def MultiHeadSelfAttention.forward (m : MultiHeadSelfAttention) (x : Tensor4) :
    Option Tensor4 :=
  if x.channels = m.embed_size then some (mhsaRaw m x) else none

/-- The Denoiser module (encoder convs, attention bottleneck, upsample
path with additive skips, residual and output convs). -/
structure Denoiser where
  num_filters : Nat
  conv1 : ConvParams
  conv2 : ConvParams
  conv3 : ConvParams
  conv4 : ConvParams
  bottleneck : MultiHeadSelfAttention
  output_layer : ConvParams
  res_layer : ConvParams
  activation : ℝ → ℝ

/-- Denoiser.forward, mirroring src/model.py lines 69-83 step by step. -/
def Denoiser.forward (d : Denoiser) (x : Tensor4) : Option Tensor4 :=
  (conv2d d.conv1 d.num_filters 1 3 1 1 x).bind fun c1 =>
  (conv2d d.conv2 d.num_filters d.num_filters 3 2 1 (mapT d.activation c1)).bind fun c2 =>
  (conv2d d.conv3 d.num_filters d.num_filters 3 2 1 (mapT d.activation c2)).bind fun c3 =>
  (conv2d d.conv4 d.num_filters d.num_filters 3 2 1 (mapT d.activation c3)).bind fun c4 =>
  (MultiHeadSelfAttention.forward d.bottleneck (mapT d.activation c4)).bind fun bt =>
  (addT (upsample2 bt) (mapT d.activation c3)).bind fun a3 =>
  (addT (upsample2 a3) (mapT d.activation c2)).bind fun a2 =>
  (addT (upsample2 a2) (mapT d.activation c1)).bind fun a1 =>
  (conv2d d.res_layer 1 d.num_filters 3 1 1 a1).bind fun r =>
  (conv2d d.output_layer 1 1 3 1 1 (addRaw r r)).map (mapT tanhR)

/-- The GammaUnet orchestrator: three Denoiser branches and a fusion conv. -/
structure GammaUnet where
  denoiser_y : Denoiser
  denoiser_cb : Denoiser
  denoiser_cr : Denoiser
  final_conv : ConvParams

/-- self.gamma, unconditionally set to 0.4 in GammaUnet.__init__. -/
def GammaUnet.gamma : ℝ := 0.4

/-- sign(v) * (abs(v) + 1e-6) ** (1/3), the stabilized cube root used in
GammaUnet._rgb_to_oklab. -/
def cbrtStab (v : ℝ) : ℝ := sgn v * (|v| + 1e-6) ^ ((1 : ℝ) / 3)

/-- The value computed by GammaUnet._rgb_to_oklab once reading channels
0, 1 and 2 is in bounds. -/
def oklabRaw (x : Tensor4) : Tensor4 :=
  { batch := x.batch, channels := 3, height := x.height, width := x.width,
    data := fun b c i j =>
      let r := x.data b 0 i j
      let g := x.data b 1 i j
      let bl := x.data b 2 i j
      let l := 0.4122214708 * r + 0.5363325363 * g + 0.0514459929 * bl
      let m := 0.2119034982 * r + 0.6806995451 * g + 0.1073969566 * bl
      let s := 0.0883024619 * r + 0.2817188376 * g + 0.6299787005 * bl
      let lq := cbrtStab l
      let mq := cbrtStab m
      let sq := cbrtStab s
      if c = 0 then 0.2104542553 * lq + 0.7936177850 * mq - 0.0040720468 * sq
      else if c = 1 then 1.9779984951 * lq - 2.4285922050 * mq + 0.4505937099 * sq
      else if c = 2 then 0.0259040371 * lq + 0.7827717662 * mq - 0.8086757660 * sq
      else 0 }

/-- GammaUnet._rgb_to_oklab: indexing image[:, 0], [:, 1], [:, 2] requires at
least 3 channels; extra channels are silently ignored. -/
def GammaUnet.rgb_to_oklab (x : Tensor4) : Option Tensor4 :=
  if 3 ≤ x.channels then some (oklabRaw x) else none

/-- The base handed to torch.pow in GammaUnet._gamma_correction. -/
def gammaBase (v : ℝ) : ℝ := clamp01 v + 1e-8

/-- GammaUnet._gamma_correction: clamp to [0,1], add eps, raise to gamma. -/
def GammaUnet.gamma_correction (x : Tensor4) (g : ℝ) : Tensor4 :=
  { x with data := fun b c i j => gammaBase (x.data b c i j) ^ g }

/-- One piece of torch.split(·, 1, dim=1): channel k as a (batch,1,H,W) view. -/
def splitChannel (x : Tensor4) (k : Nat) : Tensor4 :=
  { batch := x.batch, channels := 1, height := x.height, width := x.width,
    data := fun b _ i j => x.data b k i j }

/-- The value computed by torch.cat([a,b,c], dim=1) once shapes agree. -/
def catRaw3 (a b c : Tensor4) : Tensor4 :=
  { batch := a.batch, channels := a.channels + b.channels + c.channels,
    height := a.height, width := a.width,
    data := fun bb ch i j =>
      if ch < a.channels then a.data bb ch i j
      else if ch < a.channels + b.channels then b.data bb (ch - a.channels) i j
      else c.data bb (ch - a.channels - b.channels) i j }

/-- torch.cat([a,b,c], dim=1): all non-concatenated axes must agree. -/
def catChannels3 (a b c : Tensor4) : Option Tensor4 :=
  if a.batch = b.batch ∧ b.batch = c.batch ∧ a.height = b.height ∧
     b.height = c.height ∧ a.width = b.width ∧ b.width = c.width then
    some (catRaw3 a b c)
  else none

/-- GammaUnet.forward, mirroring src/model.py lines 147-176: convert to
Oklab, gamma-correct channels 0 and 1 (channel 2 passes through), run the
three Denoiser branches, concatenate, fuse, squash with sigmoid. -/
def GammaUnet.forward (m : GammaUnet) (x : Tensor4) : Option Tensor4 :=
  (GammaUnet.rgb_to_oklab x).bind fun ycbcr =>
  (Denoiser.forward m.denoiser_y
      (GammaUnet.gamma_correction (splitChannel ycbcr 0) GammaUnet.gamma)).bind fun y_denoised =>
  (Denoiser.forward m.denoiser_cb
      (GammaUnet.gamma_correction (splitChannel ycbcr 1) GammaUnet.gamma)).bind fun cb_denoised =>
  (Denoiser.forward m.denoiser_cr (splitChannel ycbcr 2)).bind fun cr_denoised =>
  (catChannels3 y_denoised cb_denoised cr_denoised).bind fun combined =>
  (conv2d m.final_conv 3 3 3 1 1 combined).map (mapT sigmoid)

/-- All-zero linear parameters (a concrete parameter assignment). -/
def zeroLin : LinearParams := ⟨fun _ _ => 0, fun _ => 0⟩

/-- All-zero convolution parameters. -/
def zeroConv : ConvParams := ⟨fun _ _ _ _ => 0, fun _ => 0⟩

/-- A concrete attention module with the constructed configuration
embed_size=32, num_heads=4, head_dim=8. -/
def att0 : MultiHeadSelfAttention := ⟨32, 4, 8, zeroLin, zeroLin, zeroLin, zeroLin⟩

/-- A concrete Denoiser with num_filters=32 and relu activation. -/
def den0 : Denoiser :=
  ⟨32, zeroConv, zeroConv, zeroConv, zeroConv, att0, zeroConv, zeroConv, relu⟩

/-- A concrete GammaUnet parameter assignment. -/
def gU0 : GammaUnet := ⟨den0, den0, den0, zeroConv⟩

/-- A concrete valid input: shape (1,3,8,8), all pixels 1/2. -/
def xHalf : Tensor4 := ⟨1, 3, 8, 8, fun _ _ _ _ => 1/2⟩

/-- A placeholder tensor (used only as the default of getD). -/
def dummyT : Tensor4 := ⟨0, 0, 0, 0, fun _ _ _ _ => 0⟩

/-- A 4-channel input of spatial size 8x8. -/
def x4c : Tensor4 := ⟨1, 4, 8, 8, fun _ _ _ _ => 1/2⟩

/-- A 2-channel input of spatial size 8x8. -/
def x2c : Tensor4 := ⟨1, 2, 8, 8, fun _ _ _ _ => 1/2⟩

/-- A (1,3,0,0) input: its spatial sizes 0 are multiples of 8. -/
def x00 : Tensor4 := ⟨1, 3, 0, 0, fun _ _ _ _ => 0⟩

/-- A single-channel (1,1,10,10) input, as carved out of a (1,3,10,10)
image by the orchestrator's channel split. -/
def x10 : Tensor4 := ⟨1, 1, 10, 10, fun _ _ _ _ => 0⟩

/-- A single-channel valid input (1,1,8,8). -/
def x1ch : Tensor4 := ⟨1, 1, 8, 8, fun _ _ _ _ => 1/2⟩

/-- Concrete input for the attention-flatten analysis: shape (1,32,1,2)
with entry (b,c,i,j) equal to 2*c + j. -/
def xC1 : Tensor4 := ⟨1, 32, 1, 2, fun _ c _ j => ((2 * c + j : Nat) : ℝ)⟩

/-- The Oklab conversion of xHalf. -/
def c0T : Tensor4 := (GammaUnet.rgb_to_oklab xHalf).getD dummyT

/-- The GammaUnet output on xHalf with parameters gU0. -/
def y0T : Tensor4 := (GammaUnet.forward gU0 xHalf).getD dummyT

/-- The Denoiser output on x1ch with parameters den0. -/
def d0T : Tensor4 := (Denoiser.forward den0 x1ch).getD dummyT

@[simp] theorem someBind {α β : Type} (a : α) (f : α → Option β) :
    (Option.some a).bind f = f a := rfl

@[simp] theorem noneBind {α β : Type} (f : α → Option β) :
    (Option.none : Option α).bind f = none := rfl

@[simp] theorem someMap {α β : Type} (a : α) (f : α → β) :
    (Option.some a).map f = some (f a) := rfl

@[simp] theorem mapT_batch (f : ℝ → ℝ) (x : Tensor4) : (mapT f x).batch = x.batch := rfl

@[simp] theorem mapT_channels (f : ℝ → ℝ) (x : Tensor4) :
    (mapT f x).channels = x.channels := rfl

@[simp] theorem mapT_height (f : ℝ → ℝ) (x : Tensor4) : (mapT f x).height = x.height := rfl

@[simp] theorem mapT_width (f : ℝ → ℝ) (x : Tensor4) : (mapT f x).width = x.width := rfl

@[simp] theorem convRaw_batch (cp : ConvParams) (oC iC k s p : Nat) (x : Tensor4) :
    (convRaw cp oC iC k s p x).batch = x.batch := rfl

@[simp] theorem convRaw_channels (cp : ConvParams) (oC iC k s p : Nat) (x : Tensor4) :
    (convRaw cp oC iC k s p x).channels = oC := rfl

@[simp] theorem convRaw_height (cp : ConvParams) (oC iC k s p : Nat) (x : Tensor4) :
    (convRaw cp oC iC k s p x).height = convOut x.height k s p := rfl

@[simp] theorem convRaw_width (cp : ConvParams) (oC iC k s p : Nat) (x : Tensor4) :
    (convRaw cp oC iC k s p x).width = convOut x.width k s p := rfl

@[simp] theorem addRaw_batch (x y : Tensor4) : (addRaw x y).batch = max x.batch y.batch := rfl

@[simp] theorem addRaw_channels (x y : Tensor4) :
    (addRaw x y).channels = max x.channels y.channels := rfl

@[simp] theorem addRaw_height (x y : Tensor4) :
    (addRaw x y).height = max x.height y.height := rfl

@[simp] theorem addRaw_width (x y : Tensor4) : (addRaw x y).width = max x.width y.width := rfl

@[simp] theorem upsample2_batch (x : Tensor4) : (upsample2 x).batch = x.batch := rfl

@[simp] theorem upsample2_channels (x : Tensor4) : (upsample2 x).channels = x.channels := rfl

@[simp] theorem upsample2_height (x : Tensor4) : (upsample2 x).height = 2 * x.height := rfl

@[simp] theorem upsample2_width (x : Tensor4) : (upsample2 x).width = 2 * x.width := rfl

@[simp] theorem mhsaRaw_batch (m : MultiHeadSelfAttention) (x : Tensor4) :
    (mhsaRaw m x).batch = x.batch := rfl

@[simp] theorem mhsaRaw_channels (m : MultiHeadSelfAttention) (x : Tensor4) :
    (mhsaRaw m x).channels = m.embed_size := rfl

@[simp] theorem mhsaRaw_height (m : MultiHeadSelfAttention) (x : Tensor4) :
    (mhsaRaw m x).height = x.height := rfl

@[simp] theorem mhsaRaw_width (m : MultiHeadSelfAttention) (x : Tensor4) :
    (mhsaRaw m x).width = x.width := rfl

@[simp] theorem oklabRaw_batch (x : Tensor4) : (oklabRaw x).batch = x.batch := rfl

@[simp] theorem oklabRaw_channels (x : Tensor4) : (oklabRaw x).channels = 3 := rfl

@[simp] theorem oklabRaw_height (x : Tensor4) : (oklabRaw x).height = x.height := rfl

@[simp] theorem oklabRaw_width (x : Tensor4) : (oklabRaw x).width = x.width := rfl

@[simp] theorem gamma_correction_batch (x : Tensor4) (g : ℝ) :
    (GammaUnet.gamma_correction x g).batch = x.batch := rfl

@[simp] theorem gamma_correction_channels (x : Tensor4) (g : ℝ) :
    (GammaUnet.gamma_correction x g).channels = x.channels := rfl

@[simp] theorem gamma_correction_height (x : Tensor4) (g : ℝ) :
    (GammaUnet.gamma_correction x g).height = x.height := rfl

@[simp] theorem gamma_correction_width (x : Tensor4) (g : ℝ) :
    (GammaUnet.gamma_correction x g).width = x.width := rfl

@[simp] theorem splitChannel_batch (x : Tensor4) (k : Nat) :
    (splitChannel x k).batch = x.batch := rfl

@[simp] theorem splitChannel_channels (x : Tensor4) (k : Nat) :
    (splitChannel x k).channels = 1 := rfl

@[simp] theorem splitChannel_height (x : Tensor4) (k : Nat) :
    (splitChannel x k).height = x.height := rfl

@[simp] theorem splitChannel_width (x : Tensor4) (k : Nat) :
    (splitChannel x k).width = x.width := rfl

@[simp] theorem catRaw3_batch (a b c : Tensor4) : (catRaw3 a b c).batch = a.batch := rfl

@[simp] theorem catRaw3_channels (a b c : Tensor4) :
    (catRaw3 a b c).channels = a.channels + b.channels + c.channels := rfl

@[simp] theorem catRaw3_height (a b c : Tensor4) : (catRaw3 a b c).height = a.height := rfl

@[simp] theorem catRaw3_width (a b c : Tensor4) : (catRaw3 a b c).width = a.width := rfl

theorem sigmoid_pos (v : ℝ) : 0 < sigmoid v := by
  unfold sigmoid
  positivity

theorem sigmoid_lt_one (v : ℝ) : sigmoid v < 1 := by
  unfold sigmoid
  rw [div_lt_one (by positivity)]
  linarith [Real.exp_pos (-v)]

theorem neg_one_lt_tanhR (v : ℝ) : -1 < tanhR v := by
  unfold tanhR
  rw [lt_div_iff₀ (by positivity)]
  linarith [Real.exp_pos v, Real.exp_pos (-v)]

theorem tanhR_lt_one (v : ℝ) : tanhR v < 1 := by
  unfold tanhR
  rw [div_lt_one (by positivity)]
  linarith [Real.exp_pos v, Real.exp_pos (-v)]

theorem clamp01_nonneg (v : ℝ) : 0 ≤ clamp01 v :=
  le_min (le_max_right v 0) zero_le_one

theorem clamp01_le_one (v : ℝ) : clamp01 v ≤ 1 := min_le_right _ _

theorem clamp01_idem (v : ℝ) : clamp01 (clamp01 v) = clamp01 v := by
  unfold clamp01
  rw [max_eq_left (le_min (le_max_right v 0) zero_le_one),
    min_eq_left (min_le_right _ _)]

theorem gammaBase_pos (v : ℝ) : 0 < gammaBase v := by
  have h := clamp01_nonneg v
  unfold gammaBase
  norm_num
  linarith

theorem le_gammaBase (v : ℝ) : (1e-8 : ℝ) ≤ gammaBase v := by
  have h := clamp01_nonneg v
  unfold gammaBase
  linarith

theorem gammaBase_le (v : ℝ) : gammaBase v ≤ 1 + 1e-8 := by
  have h := clamp01_le_one v
  unfold gammaBase
  linarith

theorem convOut_s1 (n : Nat) (h : 1 ≤ n) : convOut n 3 1 1 = n := by
  unfold convOut
  omega

theorem convOut_s2 (m : Nat) (h : 1 ≤ m) : convOut (2 * m) 3 2 1 = m := by
  unfold convOut
  omega

/-- On a single-channel input whose spatial sizes are positive multiples of
eight, Denoiser.forward succeeds and preserves batch and spatial shape. -/
theorem denoise_some (d : Denoiser) (x : Tensor4) (k l : Nat)
    (hwf : d.bottleneck.embed_size = d.num_filters)
    (hch : x.channels = 1) (hH : x.height = 8 * k) (hW : x.width = 8 * l)
    (hk : 1 ≤ k) (hl : 1 ≤ l) :
    ∃ y, Denoiser.forward d x = some y ∧ y.batch = x.batch ∧ y.channels = 1 ∧
      y.height = x.height ∧ y.width = x.width := by
  have e1 : convOut (8 * k) 3 1 1 = 8 * k := by unfold convOut; omega
  have e1w : convOut (8 * l) 3 1 1 = 8 * l := by unfold convOut; omega
  have e2 : convOut (8 * k) 3 2 1 = 4 * k := by unfold convOut; omega
  have e2w : convOut (8 * l) 3 2 1 = 4 * l := by unfold convOut; omega
  have e3 : convOut (4 * k) 3 2 1 = 2 * k := by unfold convOut; omega
  have e3w : convOut (4 * l) 3 2 1 = 2 * l := by unfold convOut; omega
  have e4 : convOut (2 * k) 3 2 1 = k := by unfold convOut; omega
  have e4w : convOut (2 * l) 3 2 1 = l := by unfold convOut; omega
  have c1 : 3 ≤ 8 * k + 2 * 1 := by omega
  have c1w : 3 ≤ 8 * l + 2 * 1 := by omega
  have c2 : 3 ≤ 4 * k + 2 * 1 := by omega
  have c2w : 3 ≤ 4 * l + 2 * 1 := by omega
  have c3 : 3 ≤ 2 * k + 2 * 1 := by omega
  have c3w : 3 ≤ 2 * l + 2 * 1 := by omega
  have m2 : 2 * (2 * k) = 4 * k := by ring
  have m2w : 2 * (2 * l) = 4 * l := by ring
  have m3 : 2 * (4 * k) = 8 * k := by ring
  have m3w : 2 * (4 * l) = 8 * l := by ring
  simp only [Denoiser.forward, conv2d, MultiHeadSelfAttention.forward, addT,
    mapT_batch, mapT_channels, mapT_height, mapT_width, convRaw_batch,
    convRaw_channels, convRaw_height, convRaw_width, addRaw_batch,
    addRaw_channels, addRaw_height, addRaw_width, upsample2_batch,
    upsample2_channels, upsample2_height, upsample2_width, mhsaRaw_batch,
    mhsaRaw_channels, mhsaRaw_height, mhsaRaw_width, hch, hH, hW, hwf,
    e1, e1w, e2, e2w, e3, e3w, e4, e4w, c1, c1w, c2, c2w, c3, c3w,
    m2, m2w, m3, m3w, max_self, and_self, if_true, and_true, true_and,
    eq_self_iff_true, someBind, someMap, or_true, true_or, le_refl]
  refine ⟨_, rfl, ?_, ?_, ?_, ?_⟩ <;>
    simp [hch, hH, hW, hwf, e1, e1w, e2, e2w, e3, e3w, e4, e4w, m2, m2w, m3, m3w]

/-- On an input with at least 3 channels and spatial sizes positive
multiples of eight, GammaUnet.forward succeeds, preserves batch and
spatial shape, and outputs 3 channels. -/
theorem forward_some (m : GammaUnet) (x : Tensor4) (k l : Nat)
    (hwy : m.denoiser_y.bottleneck.embed_size = m.denoiser_y.num_filters)
    (hwcb : m.denoiser_cb.bottleneck.embed_size = m.denoiser_cb.num_filters)
    (hwcr : m.denoiser_cr.bottleneck.embed_size = m.denoiser_cr.num_filters)
    (hch : 3 ≤ x.channels) (hH : x.height = 8 * k) (hW : x.width = 8 * l)
    (hk : 1 ≤ k) (hl : 1 ≤ l) :
    ∃ y, GammaUnet.forward m x = some y ∧ y.batch = x.batch ∧ y.channels = 3 ∧
      y.height = x.height ∧ y.width = x.width := by
  obtain ⟨y1, hy1, b1, ch1, h1, w1⟩ := denoise_some m.denoiser_y
    (GammaUnet.gamma_correction (splitChannel (oklabRaw x) 0) GammaUnet.gamma) k l hwy
    rfl (by simp [hH]) (by simp [hW]) hk hl
  obtain ⟨y2, hy2, b2, ch2, h2, w2⟩ := denoise_some m.denoiser_cb
    (GammaUnet.gamma_correction (splitChannel (oklabRaw x) 1) GammaUnet.gamma) k l hwcb
    rfl (by simp [hH]) (by simp [hW]) hk hl
  obtain ⟨y3, hy3, b3, ch3, h3, w3⟩ := denoise_some m.denoiser_cr
    (splitChannel (oklabRaw x) 2) k l hwcr rfl (by simp [hH]) (by simp [hW]) hk hl
  simp only [gamma_correction_batch, gamma_correction_height, gamma_correction_width,
    splitChannel_batch, splitChannel_height, splitChannel_width,
    oklabRaw_batch, oklabRaw_height, oklabRaw_width] at b1 h1 w1 b2 h2 w2 b3 h3 w3
  have hok : GammaUnet.rgb_to_oklab x = some (oklabRaw x) := by
    unfold GammaUnet.rgb_to_oklab
    rw [if_pos hch]
  have hcat : catChannels3 y1 y2 y3 = some (catRaw3 y1 y2 y3) := by
    unfold catChannels3
    rw [if_pos]
    omega
  have h8k : (1 : Nat) ≤ 8 * k := by omega
  have h8l : (1 : Nat) ≤ 8 * l := by omega
  have hconv : conv2d m.final_conv 3 3 3 1 1 (catRaw3 y1 y2 y3) =
      some (convRaw m.final_conv 3 3 3 1 1 (catRaw3 y1 y2 y3)) := by
    unfold conv2d
    rw [if_pos]
    refine ⟨?_, ?_, ?_⟩
    · simp [ch1, ch2, ch3]
    · simp only [catRaw3_height, h1, hH]
      omega
    · simp only [catRaw3_width, w1, hW]
      omega
  refine ⟨mapT sigmoid (convRaw m.final_conv 3 3 3 1 1 (catRaw3 y1 y2 y3)),
    ?_, ?_, ?_, ?_, ?_⟩
  · unfold GammaUnet.forward
    simp only [hok, someBind, hy1, hy2, hy3, hcat, hconv, someMap]
  · simp [b1]
  · simp [ch1, ch2, ch3]
  · simp only [mapT_height, convRaw_height, catRaw3_height, h1, hH, convOut_s1 _ h8k]
  · simp only [mapT_width, convRaw_width, catRaw3_width, w1, hW, convOut_s1 _ h8l]

/-- The Oklab conversion succeeds on the concrete input xHalf. -/
theorem oklab_xHalf : GammaUnet.rgb_to_oklab xHalf = some (oklabRaw xHalf) := by
  unfold GammaUnet.rgb_to_oklab
  rw [if_pos (show 3 ≤ xHalf.channels from Nat.le_refl 3)]

/-- c0T is that conversion. -/
theorem c0T_def : c0T = oklabRaw xHalf := by
  unfold c0T
  rw [oklab_xHalf]
  rfl

/-- The Oklab conversion of xHalf, phrased through c0T. -/
theorem oklab_xHalf_c0 : GammaUnet.rgb_to_oklab xHalf = some c0T := by
  rw [oklab_xHalf, c0T_def]

/-- GammaUnet.forward succeeds on the concrete (1,3,8,8) input. -/
theorem forward_xHalf_some : GammaUnet.forward gU0 xHalf = some y0T := by
  obtain ⟨y, hy, -, -, -, -⟩ :=
    forward_some gU0 xHalf 1 1 rfl rfl rfl (Nat.le_refl 3) rfl rfl (Nat.le_refl 1)
      (Nat.le_refl 1)
  rw [hy]
  unfold y0T
  rw [hy]
  rfl

/-- Denoiser.forward succeeds on the concrete (1,1,8,8) input. -/
theorem denoise_x1ch_some : Denoiser.forward den0 x1ch = some d0T := by
  obtain ⟨y, hy, -, -, -, -⟩ :=
    denoise_some den0 x1ch 1 1 rfl rfl rfl rfl (Nat.le_refl 1) (Nat.le_refl 1)
  rw [hy]
  unfold d0T
  rw [hy]
  rfl

/-- C1: in MultiHeadSelfAttention.forward, the first step x.reshape(batch,
h*w, -1) does NOT put the input's channel vector at spatial position t into
token t: at the concrete input xC1 (shape (1,32,1,2), entry (b,c,i,j) =
2c+j), token 0's feature 1 is the channel-0 value at spatial position 1
(row-major flat offset 1), which differs from the channel-1 value at
spatial position 0 that the claim requires. -/
theorem C1_flatten_is_channel_major :
    (reshapeToSeq xC1).data 0 0 1 = xC1.data 0 0 0 1 ∧
    xC1.data 0 0 0 1 = 1 ∧ xC1.data 0 1 0 0 = 2 ∧
    (reshapeToSeq xC1).data 0 0 1 ≠ xC1.data 0 1 0 0 := by
  have h1 : (reshapeToSeq xC1).data 0 0 1 = xC1.data 0 0 0 1 := rfl
  have h2 : xC1.data 0 0 0 1 = 1 := by norm_num [xC1]
  have h3 : xC1.data 0 1 0 0 = 2 := by norm_num [xC1]
  exact ⟨h1, h2, h3, by rw [h1, h2, h3]; norm_num⟩

/-- C2: every element of a successful GammaUnet.forward output lies
strictly in (0,1) (final logistic squash), and every element of a
successful Denoiser.forward output lies strictly in (-1,1) (final tanh). -/
theorem C2_output_range :
    (∀ (m : GammaUnet) (x y : Tensor4), GammaUnet.forward m x = some y →
      ∀ b c i j, 0 < y.data b c i j ∧ y.data b c i j < 1) ∧
    (∀ (d : Denoiser) (x y : Tensor4), Denoiser.forward d x = some y →
      ∀ b c i j, -1 < y.data b c i j ∧ y.data b c i j < 1) := by
  constructor
  · intro m x y h b c i j
    unfold GammaUnet.forward at h
    obtain ⟨a1, -, h⟩ := Option.bind_eq_some.mp h
    obtain ⟨a2, -, h⟩ := Option.bind_eq_some.mp h
    obtain ⟨a3, -, h⟩ := Option.bind_eq_some.mp h
    obtain ⟨a4, -, h⟩ := Option.bind_eq_some.mp h
    obtain ⟨a5, -, h⟩ := Option.bind_eq_some.mp h
    obtain ⟨t, -, ht⟩ := Option.map_eq_some'.mp h
    rw [← ht]
    exact ⟨sigmoid_pos _, sigmoid_lt_one _⟩
  · intro d x y h b c i j
    unfold Denoiser.forward at h
    obtain ⟨a1, -, h⟩ := Option.bind_eq_some.mp h
    obtain ⟨a2, -, h⟩ := Option.bind_eq_some.mp h
    obtain ⟨a3, -, h⟩ := Option.bind_eq_some.mp h
    obtain ⟨a4, -, h⟩ := Option.bind_eq_some.mp h
    obtain ⟨a5, -, h⟩ := Option.bind_eq_some.mp h
    obtain ⟨a6, -, h⟩ := Option.bind_eq_some.mp h
    obtain ⟨a7, -, h⟩ := Option.bind_eq_some.mp h
    obtain ⟨a8, -, h⟩ := Option.bind_eq_some.mp h
    obtain ⟨a9, -, h⟩ := Option.bind_eq_some.mp h
    obtain ⟨t, -, ht⟩ := Option.map_eq_some'.mp h
    rw [← ht]
    exact ⟨neg_one_lt_tanhR _, tanhR_lt_one _⟩

/-- Witness for C2 at concrete inputs and parameters. -/
theorem C2_output_range_witness :
    (0 < y0T.data 0 0 0 0 ∧ y0T.data 0 0 0 0 < 1) ∧
    (-1 < d0T.data 0 0 0 0 ∧ d0T.data 0 0 0 0 < 1) :=
  ⟨C2_output_range.1 gU0 xHalf y0T forward_xHalf_some 0 0 0 0,
   C2_output_range.2 den0 x1ch d0T denoise_x1ch_some 0 0 0 0⟩

/-- C3 (amended: H and W positive multiples of 8): GammaUnet.forward
succeeds and its output shape equals the input shape (B,3,H,W). -/
theorem C3_shape_preservation (m : GammaUnet) (x : Tensor4) (k l : Nat)
    (hwy : m.denoiser_y.bottleneck.embed_size = m.denoiser_y.num_filters)
    (hwcb : m.denoiser_cb.bottleneck.embed_size = m.denoiser_cb.num_filters)
    (hwcr : m.denoiser_cr.bottleneck.embed_size = m.denoiser_cr.num_filters)
    (hch : x.channels = 3) (hH : x.height = 8 * k) (hW : x.width = 8 * l)
    (hk : 0 < k) (hl : 0 < l) :
    ∃ y, GammaUnet.forward m x = some y ∧ y.batch = x.batch ∧
      y.channels = x.channels ∧ y.height = x.height ∧ y.width = x.width := by
  obtain ⟨y, hy, hb, hc, hh, hw⟩ :=
    forward_some m x k l hwy hwcb hwcr (by omega) hH hW hk hl
  exact ⟨y, hy, hb, by rw [hc, hch], hh, hw⟩

/-- Witness for C3 at the concrete (1,3,8,8) input. -/
theorem C3_shape_preservation_witness :
    ∃ y, GammaUnet.forward gU0 xHalf = some y ∧ y.batch = xHalf.batch ∧
      y.channels = xHalf.channels ∧ y.height = xHalf.height ∧ y.width = xHalf.width :=
  C3_shape_preservation gU0 xHalf 1 1 rfl rfl rfl rfl rfl rfl Nat.one_pos Nat.one_pos

/-- Counterexample to C3 as literally stated: the (1,3,0,0) input has
spatial sizes that are multiples of 8, yet GammaUnet.forward fails (the
first convolution rejects a padded input smaller than its kernel), so no
output of the input's shape is produced. -/
theorem C3_shape_preservation_counterexample :
    x00.channels = 3 ∧ x00.height % 8 = 0 ∧ x00.width % 8 = 0 ∧
    GammaUnet.forward gU0 x00 = none := by
  refine ⟨rfl, rfl, rfl, ?_⟩
  simp [GammaUnet.forward, GammaUnet.rgb_to_oklab, Denoiser.forward, conv2d, x00]

/-- C4: GammaUnet.forward is deterministic: two evaluations with identical
parameters and identical input produce identical output. -/
theorem C4_determinism (m : GammaUnet) (x y1 y2 : Tensor4)
    (h1 : GammaUnet.forward m x = some y1) (h2 : GammaUnet.forward m x = some y2) :
    y1 = y2 := by
  rw [h1] at h2
  exact Option.some.inj h2

/-- Witness for C4 at concrete parameters and input. -/
theorem C4_determinism_witness : y0T = y0T :=
  C4_determinism gU0 xHalf y0T y0T forward_xHalf_some forward_xHalf_some

/-- C5: MultiHeadSelfAttention construction fails exactly at the
divisibility assert: any embed_size with nonzero remainder modulo
num_heads is rejected at construction; (33,4) is rejected, (32,4) is
accepted; and every constructed module satisfies the invariant, so no
check is deferred to the first forward call. -/
theorem C5_head_count_invariant :
    (∀ e h q k v c, e % h ≠ 0 → MultiHeadSelfAttention.init e h q k v c = none) ∧
    (∀ q k v c, MultiHeadSelfAttention.init 33 4 q k v c = none) ∧
    (∀ q k v c, (MultiHeadSelfAttention.init 32 4 q k v c).isSome = true) ∧
    (∀ e h q k v c m, MultiHeadSelfAttention.init e h q k v c = some m →
      m.embed_size % m.num_heads = 0) := by
  refine ⟨?_, ?_, ?_, ?_⟩
  · intro e h q k v c hne
    unfold MultiHeadSelfAttention.init
    rw [if_neg hne]
  · intro q k v c
    unfold MultiHeadSelfAttention.init
    norm_num
  · intro q k v c
    unfold MultiHeadSelfAttention.init
    norm_num
  · intro e h q k v c m hm
    unfold MultiHeadSelfAttention.init at hm
    by_cases hc : e % h = 0
    · rw [if_pos hc] at hm
      cases hm
      exact hc
    · rw [if_neg hc] at hm
      cases hm

/-- Witness for C5 at the concrete configurations. -/
theorem C5_head_count_invariant_witness :
    MultiHeadSelfAttention.init 33 4 zeroLin zeroLin zeroLin zeroLin = none ∧
    (MultiHeadSelfAttention.init 32 4 zeroLin zeroLin zeroLin zeroLin).isSome = true :=
  ⟨C5_head_count_invariant.1 33 4 zeroLin zeroLin zeroLin zeroLin (by norm_num),
   C5_head_count_invariant.2.2.1 zeroLin zeroLin zeroLin zeroLin⟩

/-- C6: in GammaUnet.forward the channel-0 and channel-1 branch inputs are
the gamma-0.4 power of the clamped, eps-shifted converter outputs, while
the channel-2 (cr) branch input is bitwise identical to the converter's
channel 2; the forward pass routes exactly these three tensors to the
three denoisers. -/
theorem C6_asymmetric_gamma (p : GammaUnet) (x ycbcr : Tensor4)
    (h : GammaUnet.rgb_to_oklab x = some ycbcr) :
    (∀ b i j, (splitChannel ycbcr 2).data b 0 i j = ycbcr.data b 2 i j) ∧
    (∀ b i j, (GammaUnet.gamma_correction (splitChannel ycbcr 0) GammaUnet.gamma).data b 0 i j
        = gammaBase (ycbcr.data b 0 i j) ^ (0.4 : ℝ)) ∧
    (∀ b i j, (GammaUnet.gamma_correction (splitChannel ycbcr 1) GammaUnet.gamma).data b 0 i j
        = gammaBase (ycbcr.data b 1 i j) ^ (0.4 : ℝ)) ∧
    GammaUnet.forward p x =
      ((Denoiser.forward p.denoiser_y
          (GammaUnet.gamma_correction (splitChannel ycbcr 0) GammaUnet.gamma)).bind fun y_denoised =>
       (Denoiser.forward p.denoiser_cb
          (GammaUnet.gamma_correction (splitChannel ycbcr 1) GammaUnet.gamma)).bind fun cb_denoised =>
       (Denoiser.forward p.denoiser_cr (splitChannel ycbcr 2)).bind fun cr_denoised =>
       (catChannels3 y_denoised cb_denoised cr_denoised).bind fun combined =>
       (conv2d p.final_conv 3 3 3 1 1 combined).map (mapT sigmoid)) := by
  refine ⟨fun b i j => rfl, fun b i j => rfl, fun b i j => rfl, ?_⟩
  unfold GammaUnet.forward
  rw [h]
  rfl

/-- Witness for C6 at concrete input. -/
theorem C6_asymmetric_gamma_witness :
    (splitChannel c0T 2).data 0 0 0 0 = c0T.data 0 2 0 0 ∧
    (GammaUnet.gamma_correction (splitChannel c0T 0) GammaUnet.gamma).data 0 0 0 0
      = gammaBase (c0T.data 0 0 0 0) ^ (0.4 : ℝ) :=
  ⟨(C6_asymmetric_gamma gU0 xHalf c0T oklab_xHalf_c0).1 0 0 0,
   (C6_asymmetric_gamma gU0 xHalf c0T oklab_xHalf_c0).2.1 0 0 0⟩

/-- C7: gamma correction with gamma = 1 returns exactly clamp(x,0,1) + 1e-8
elementwise, with the shape unchanged. -/
theorem C7_gamma_one_identity (x : Tensor4) :
    (∀ b c i j, (GammaUnet.gamma_correction x 1).data b c i j
        = clamp01 (x.data b c i j) + 1e-8) ∧
    (GammaUnet.gamma_correction x 1).batch = x.batch ∧
    (GammaUnet.gamma_correction x 1).channels = x.channels ∧
    (GammaUnet.gamma_correction x 1).height = x.height ∧
    (GammaUnet.gamma_correction x 1).width = x.width := by
  refine ⟨fun b c i j => ?_, rfl, rfl, rfl, rfl⟩
  show gammaBase (x.data b c i j) ^ (1 : ℝ) = _
  rw [Real.rpow_one]
  rfl

/-- C8: Denoiser.forward on a (1,1,10,10) input (spatial sizes not
multiples of 8) returns a shape-mismatch failure, and the failure is the
skip-connection addition of the upsampled (4x4) bottleneck output with the
(3x3) encoder stage-3 feature map, which torch broadcasting rejects. -/
theorem C8_skip_misalignment (d : Denoiser)
    (hwf : d.bottleneck.embed_size = d.num_filters)
    (dt : Nat → Nat → Nat → Nat → ℝ) :
    Denoiser.forward d ⟨1, 1, 10, 10, dt⟩ = none ∧
    (∀ (nf : Nat) (du dv : Nat → Nat → Nat → Nat → ℝ),
      addT ⟨1, nf, 4, 4, du⟩ ⟨1, nf, 3, 3, dv⟩ = none) := by
  constructor
  · simp [Denoiser.forward, conv2d, MultiHeadSelfAttention.forward, addT, convOut, hwf]
  · intro nf du dv
    simp [addT]

/-- Witness for C8 at a fully concrete Denoiser. -/
theorem C8_skip_misalignment_witness : Denoiser.forward den0 x10 = none :=
  (C8_skip_misalignment den0 rfl x10.data).1

/-- C9 (amended): GammaUnet.forward fails at call time for every input
with fewer than 3 channels (channel indexing in the converter is out of
bounds), whereas the converter succeeds on any input with 3 or more
channels, silently ignoring extra channels. -/
theorem C9_channel_count :
    (∀ (p : GammaUnet) (x : Tensor4), x.channels < 3 → GammaUnet.forward p x = none) ∧
    (∀ x : Tensor4, 3 ≤ x.channels → (GammaUnet.rgb_to_oklab x).isSome = true) := by
  constructor
  · intro p x hch
    unfold GammaUnet.forward GammaUnet.rgb_to_oklab
    rw [if_neg (by omega)]
    rfl
  · intro x hch
    unfold GammaUnet.rgb_to_oklab
    rw [if_pos hch]
    rfl

/-- Witness for C9 at concrete 2-channel and 4-channel inputs. -/
theorem C9_channel_count_witness :
    GammaUnet.forward gU0 x2c = none ∧ (GammaUnet.rgb_to_oklab x4c).isSome = true :=
  ⟨C9_channel_count.1 gU0 x2c (by norm_num [x2c]),
   C9_channel_count.2 x4c (by norm_num [x4c])⟩

/-- Counterexample to C9 as literally stated: a 4-channel input does not
fail; the whole forward pass succeeds on the (1,4,8,8) input. -/
theorem C9_channel_count_counterexample :
    x4c.channels = 4 ∧ (GammaUnet.forward gU0 x4c).isSome = true := by
  refine ⟨rfl, ?_⟩
  obtain ⟨y, hy, -, -, -, -⟩ :=
    forward_some gU0 x4c 1 1 rfl rfl rfl (by norm_num [x4c]) rfl rfl
      (Nat.le_refl 1) (Nat.le_refl 1)
  rw [hy]
  rfl

/-- C10: gamma correction ignores values outside [0,1] (it equals the
correction of the clamped tensor), the base handed to the power is always
in [1e-8, 1+1e-8] and strictly positive, and for gamma = 0.4 every output
element lies in [(1e-8)^0.4, (1+1e-8)^0.4], in particular is positive. -/
theorem C10_gamma_correction_safety (x : Tensor4) (g : ℝ) :
    (∀ b c i j, (GammaUnet.gamma_correction x g).data b c i j
        = (GammaUnet.gamma_correction (mapT clamp01 x) g).data b c i j) ∧
    (∀ v : ℝ, (1e-8 : ℝ) ≤ gammaBase v ∧ gammaBase v ≤ 1 + 1e-8 ∧ 0 < gammaBase v) ∧
    (∀ b c i j, ((1e-8 : ℝ)) ^ (0.4 : ℝ) ≤ (GammaUnet.gamma_correction x 0.4).data b c i j ∧
      (GammaUnet.gamma_correction x 0.4).data b c i j ≤ ((1 + 1e-8 : ℝ)) ^ (0.4 : ℝ) ∧
      0 < (GammaUnet.gamma_correction x 0.4).data b c i j) := by
  refine ⟨fun b c i j => ?_, fun v => ⟨le_gammaBase v, gammaBase_le v, gammaBase_pos v⟩,
    fun b c i j => ⟨?_, ?_, ?_⟩⟩
  · show gammaBase (x.data b c i j) ^ g = gammaBase (clamp01 (x.data b c i j)) ^ g
    unfold gammaBase
    rw [clamp01_idem]
  · exact Real.rpow_le_rpow (by norm_num) (le_gammaBase _) (by norm_num)
  · exact Real.rpow_le_rpow (gammaBase_pos _).le (gammaBase_le _) (by norm_num)
  · exact Real.rpow_pos_of_pos (gammaBase_pos _) _

end
